import Mathlib

/-!
Shallow embedding of the `fighting_with_compiler` repository (a minimal
Win32 + Direct3D 11 "hello triangle" program, sources `src/main.rs`,
`src/window.rs`, `src/d3d11.rs`, `src/d3dutil.rs`) together with proofs
about its window registry, renderer lifecycle, draw pipeline and error
handling.

Native API interactions are modelled by explicit state passing plus a
trace of native calls (`ApiCall`); machine integers are modelled by `Nat`
or `Int` with explicit truncation where the source truncates.
-/

namespace FWC

/-! ## Basic geometry data (window.rs) -/

/-- Model of `window.rs` `struct Position { x: i32, y: i32 }`. -/
structure Position where
  x : Int
  y : Int
deriving DecidableEq, Repr

/-- Model of `window.rs` `struct Size { width: i32, height: i32 }`. -/
structure Size where
  width : Int
  height : Int
deriving DecidableEq, Repr

/-- Model of `window.rs` `fn LOWORD(x: u32) -> u32 { x & 0xFFFF }`. -/
def LOWORD (x : Nat) : Nat := x &&& 65535

/-- Model of `window.rs` `fn HIWORD(x: u32) -> u32 { (x >> 16) & 0xFFFF }`. -/
def HIWORD (x : Nat) : Nat := (x >>> 16) &&& 65535

/-- Bit-masking with `0xFFFF` is reduction modulo `2 ^ 16`. -/
theorem LOWORD_eq_mod (x : Nat) : LOWORD x = x % 65536 := by
  have h := Nat.and_pow_two_sub_one_eq_mod x 16
  simpa [LOWORD] using h

/-! ## Windows message constants (values from the Win32 headers) -/

def WM_DESTROY : Nat := 2
def WM_SIZE : Nat := 5
def WM_PAINT : Nat := 15
def WM_NCCREATE : Nat := 129
def WM_NCDESTROY : Nat := 130

/-! ## Error-handling model (spec section 7)

Every fallible native API call site in the repository, together with what
the code at that site does when the call fails.  Call sites whose native
function has no failure channel (`PostQuitMessage`, `OMSetRenderTargets`,
`Draw`, ...) are not listed. -/

/-- What a call site in this repository does when the native call fails. -/
inductive FailureBehavior where
  /-- The site panics at once: `.unwrap()`, `.expect(..)` or an explicit
  `panic!` on the error branch. -/
  | abort
  /-- The failure is not observed: the result is discarded (`let _ = ...`,
  bare call) or the error value is not distinguished, and execution
  continues. -/
  | ignore
  /-- On failure an alternative code path is taken instead of aborting. -/
  | fallback
  /-- The error is converted and returned to the caller as a value. -/
  | returnErr
deriving DecidableEq, Repr

/-- A fallible native API call site of this repository. -/
structure NativeCallSite where
  /-- The repository function containing the call. -/
  rustFn : String
  /-- The native API being called. -/
  api : String
  /-- What the site does when the native call fails. -/
  onFailure : FailureBehavior
deriving DecidableEq, Repr

/-- Every fallible native API call site in the repository, read off the
four source files call by call. -/
def nativeCallSites : List NativeCallSite := [
  -- window.rs
  ⟨"Window::new", "CreateWindowExW", .returnErr⟩,
  ⟨"Window::show", "ShowWindow", .ignore⟩,
  ⟨"Window::show", "UpdateWindow", .ignore⟩,
  ⟨"Window::get_size", "GetClientRect", .abort⟩,
  ⟨"Window::get_position", "GetWindowRect", .abort⟩,
  ⟨"WndClass::init", "GetModuleHandleW", .abort⟩,
  ⟨"WndClass::init", "RegisterClassW", .ignore⟩,
  ⟨"WndClass::msg_loop", "GetMessageW", .ignore⟩,
  ⟨"WndClass::msg_loop", "TranslateMessage", .ignore⟩,
  ⟨"WndClass::msg_loop", "DispatchMessageW", .ignore⟩,
  -- d3d11.rs
  ⟨"D3d11Renderer::create_device_context", "D3D11CreateDevice", .abort⟩,
  ⟨"D3d11Renderer::create_swap_chain", "cast IDXGIDevice", .abort⟩,
  ⟨"D3d11Renderer::create_swap_chain", "GetAdapter", .abort⟩,
  ⟨"D3d11Renderer::create_swap_chain", "GetParent IDXGIFactory2", .abort⟩,
  ⟨"D3d11Renderer::create_swap_chain", "CreateSwapChainForHwnd", .abort⟩,
  ⟨"D3d11Renderer::create_views", "GetBuffer", .abort⟩,
  ⟨"D3d11Renderer::create_views", "CreateRenderTargetView", .abort⟩,
  ⟨"D3d11Renderer::create_views", "CreateTexture2D", .abort⟩,
  ⟨"D3d11Renderer::create_views", "CreateDepthStencilView", .abort⟩,
  ⟨"D3d11Renderer::present", "Present", .ignore⟩,
  ⟨"D3d11Renderer::load_hlsl", "CreateVertexShader", .abort⟩,
  ⟨"D3d11Renderer::load_hlsl", "CreateInputLayout", .abort⟩,
  ⟨"D3d11Renderer::load_hlsl", "CreatePixelShader", .abort⟩,
  ⟨"D3d11Renderer::render", "CreateBuffer", .abort⟩,
  ⟨"D3d11Renderer::draw_scene", "Present", .ignore⟩,
  ⟨"D3d11Renderer::on_resize", "ResizeBuffers", .abort⟩,
  -- d3dutil.rs
  ⟨"create_shader_from_file", "D3DReadFileToBlob", .fallback⟩,
  ⟨"create_shader_from_file", "D3DCompileFromFile", .abort⟩]

/-- Value model of `d3dutil.rs` `create_shader_from_file`: blobs are
abstract `Nat` ids, a failed native call is `none`, and a `none` result
of the whole function is the `panic!` on the compile error branch.  The
function first tries `D3DReadFileToBlob` on the `.cso` file and returns
its blob on success; only on failure does it run `D3DCompileFromFile`,
panicking if that also fails. -/
def create_shader_from_file (readResult : Option Nat) (compileResult : Option Nat) :
    Option Nat :=
  match readResult with
  | some blob => some blob
  | none =>
    match compileResult with
    | some blob => some blob
    | none => none

/-- Whether a run of a piece of code continues or panics. -/
inductive ExecOutcome where
  | continues
  | panics
deriving DecidableEq, Repr

/-- Model of `d3d11.rs` `D3d11Renderer::present`: the result of the native
`Present` call is discarded (`let _ = ...`), so execution continues whether
or not the call failed. -/
def present_outcome (_presentFailed : Bool) : ExecOutcome := .continues

/-! ## Direct3D constants (values from the d3d11 headers) -/

def D3D11_USAGE_DEFAULT : Nat := 0
def D3D11_USAGE_IMMUTABLE : Nat := 1
def D3D11_BIND_VERTEX_BUFFER : Nat := 1
def D3D11_BIND_DEPTH_STENCIL : Nat := 64
def D3D11_PRIMITIVE_TOPOLOGY_TRIANGLELIST : Nat := 4

/-! ## Vertex data (d3d11.rs)

The `f32` literals appearing in the source are all exactly representable,
so coordinates are modelled as rationals. -/

/-- Model of `directx_math::XMFLOAT3`. -/
structure XMFLOAT3 where
  x : ℚ
  y : ℚ
  z : ℚ
deriving DecidableEq, Repr

/-- Model of `directx_math::XMFLOAT4`. -/
structure XMFLOAT4 where
  x : ℚ
  y : ℚ
  z : ℚ
  w : ℚ
deriving DecidableEq, Repr

/-- Model of `d3d11.rs` `struct VertexPosColor { position: XMFLOAT3, color: XMFLOAT4 }`. -/
structure VertexPosColor where
  position : XMFLOAT3
  color : XMFLOAT4
deriving DecidableEq, Repr

/-- Byte size of `VertexPosColor` (`#[repr(C)]`, 3 + 4 `f32` fields). -/
def sizeOfVertexPosColor : Nat := 28

/-- The vertex array built in `D3d11Renderer::render`. -/
def vertices : List VertexPosColor := [
  ⟨⟨0, 1/2, 1/2⟩, ⟨0, 1, 0, 1⟩⟩,
  ⟨⟨0, -1/2, 1/2⟩, ⟨0, 0, 1, 1⟩⟩,
  ⟨⟨-1/2, -1/2, 1/2⟩, ⟨1, 0, 0, 1⟩⟩]

/-- Model of the fields of `D3D11_BUFFER_DESC` set in `render`. -/
structure D3D11_BUFFER_DESC where
  ByteWidth : Nat
  Usage : Nat
  BindFlags : Nat
  CPUAccessFlags : Nat
  MiscFlags : Nat
  StructureByteStride : Nat
deriving DecidableEq, Repr

/-- The vertex-buffer description `vbd` built in `D3d11Renderer::render`
(`ByteWidth` is `size_of_val(&vertices)`). -/
def vbd : D3D11_BUFFER_DESC :=
  ⟨sizeOfVertexPosColor * vertices.length, D3D11_USAGE_IMMUTABLE,
   D3D11_BIND_VERTEX_BUFFER, 0, 0, 0⟩

/-! ## Native call traces

Each renderer operation is modelled as a function that transforms an
explicit GPU state and emits the list of native calls it performs, in
order. -/

/-- Which of the two shaders of the program an event concerns. -/
inductive ShaderKind where
  | vertex
  | pixel
deriving DecidableEq, Repr

/-- One native API call, as recorded in a trace. -/
inductive ApiCall where
  | createWindow
  | createDevice
  | createSwapChain (width height : Int)
  | getBuffer
  | createRenderTargetView (viewId : Nat)
  | createTexture2D (width height : Int)
  | createDepthStencilView (viewId : Nat)
  | omSetRenderTargets (rtv dsv : Option Nat)
  | rsSetViewports (x y width height : Int)
  /-- A COM view handle released by a Rust drop. -/
  | releaseView (viewId : Nat)
  | resizeBuffers (width height : Int)
  | readFileToBlob (shader : ShaderKind) (ok : Bool)
  | compileFromFile (shader : ShaderKind)
  | createVertexShader
  | createInputLayout
  | createPixelShader
  | createBuffer (desc : D3D11_BUFFER_DESC)
  | iaSetVertexBuffers (stride offset : Nat)
  | iaSetPrimitiveTopology (topology : Nat)
  | iaSetInputLayout
  | vsSetShader
  | psSetShader
  | clearRenderTargetView (viewId : Nat)
  | clearDepthStencilView (viewId : Nat)
  | draw (vertexCount startVertexLocation : Nat)
  | present
deriving DecidableEq, Repr

/-- A created render-target or depth-stencil view: a fresh id plus the
generation of the swap-chain surface it was created against
(`ResizeBuffers` starts a new generation). -/
structure ViewId where
  id : Nat
  surfaceGen : Nat
deriving DecidableEq, Repr

/-- The state of the native graphics objects the renderer drives: the
swap-chain surface (size and generation), a supply of fresh view ids and
the output-merger bindings set by `OMSetRenderTargets`. -/
structure GpuState where
  surfaceGen : Nat
  surfaceWidth : Int
  surfaceHeight : Int
  nextViewId : Nat
  boundRTV : Option Nat
  boundDSV : Option Nat
deriving DecidableEq, Repr

/-- Model of `d3d11.rs` `struct D3d11Renderer`: the two `Option` view
fields; `device`, `context` and `swap_chain` live in the threaded
`GpuState`. -/
structure D3d11Renderer where
  render_target_view : Option ViewId
  depth_stencil_view : Option ViewId
deriving DecidableEq, Repr

namespace D3d11Renderer

/-- Model of `D3d11Renderer::create_views`: get the back buffer of the
swap chain, create a render-target view on it, create a fresh
depth-stencil texture of the given size and a depth-stencil view on
that. -/
def create_views (g : GpuState) (size : Size) :
    (ViewId × ViewId) × GpuState × List ApiCall :=
  let rtv : ViewId := ⟨g.nextViewId, g.surfaceGen⟩
  let dsv : ViewId := ⟨g.nextViewId + 1, g.surfaceGen⟩
  ((rtv, dsv), { g with nextViewId := g.nextViewId + 2 },
   [.getBuffer, .createRenderTargetView rtv.id,
    .createTexture2D size.width size.height, .createDepthStencilView dsv.id])

/-- Model of `D3d11Renderer::bind_render_target`
(`OMSetRenderTargets` on the two given views). -/
def bind_render_target (g : GpuState) (rtv dsv : ViewId) :
    GpuState × List ApiCall :=
  ({ g with boundRTV := some rtv.id, boundDSV := some dsv.id },
   [.omSetRenderTargets (some rtv.id) (some dsv.id)])

/-- Model of `D3d11Renderer::set_viewport` (`RSSetViewports`). -/
def set_viewport (g : GpuState) (pos : Position) (size : Size) :
    GpuState × List ApiCall :=
  (g, [.rsSetViewports pos.x pos.y size.width size.height])

/-- Model of `D3d11Renderer::new`: create device and context, create the
swap chain at the window's size, create the two views, bind them and set
the viewport; both view fields of the result are `Some`. -/
def new (g : GpuState) (pos : Position) (size : Size) :
    D3d11Renderer × GpuState × List ApiCall :=
  let g1 : GpuState :=
    { g with surfaceWidth := size.width, surfaceHeight := size.height }
  let cv := create_views g1 size
  let rtv := cv.1.1
  let dsv := cv.1.2
  let g2 := cv.2.1
  let br := bind_render_target g2 rtv dsv
  let sv := set_viewport br.1 pos size
  (⟨some rtv, some dsv⟩, sv.1,
   [.createDevice, .createSwapChain size.width size.height] ++ cv.2.2 ++ br.2 ++ sv.2)

/-- Model of `D3d11Renderer::on_resize`: drop both views (set the fields
to `None`, releasing the COM handles), `ResizeBuffers` on the swap chain,
recreate the views at the new size, rebind them and set the viewport. -/
def on_resize (r : D3d11Renderer) (g : GpuState) (pos : Position) (size : Size) :
    D3d11Renderer × GpuState × List ApiCall :=
  let dropEvents :=
    (match r.render_target_view with
     | some v => [ApiCall.releaseView v.id]
     | none => []) ++
    (match r.depth_stencil_view with
     | some v => [ApiCall.releaseView v.id]
     | none => [])
  let g1 : GpuState :=
    { g with surfaceGen := g.surfaceGen + 1,
             surfaceWidth := size.width, surfaceHeight := size.height }
  let cv := create_views g1 size
  let rtv := cv.1.1
  let dsv := cv.1.2
  let g2 := cv.2.1
  let br := bind_render_target g2 rtv dsv
  let sv := set_viewport br.1 pos size
  (⟨some rtv, some dsv⟩, sv.1,
   dropEvents ++ [.resizeBuffers size.width size.height] ++ cv.2.2 ++ br.2 ++ sv.2)

end D3d11Renderer

/-! ## Shader loading and the draw pipeline (d3d11.rs, d3dutil.rs) -/

/-- The environment the shader loader runs in: whether the precompiled
`.cso` file for each of the two shaders exists and is readable.  This is
the only input that decides which native calls `create_shader_from_file`
makes (a failing `D3DCompileFromFile` aborts the program and produces no
further trace; that branch is modelled by `create_shader_from_file`). -/
structure ShaderEnv where
  vsCsoPresent : Bool
  psCsoPresent : Bool
deriving DecidableEq, Repr

/-- Trace model of `d3dutil.rs` `create_shader_from_file`: try
`D3DReadFileToBlob` on the `.cso` file; on failure, fall back to
`D3DCompileFromFile` on the `.hlsl` source. -/
def create_shader_from_file_calls (kind : ShaderKind) (csoPresent : Bool) :
    List ApiCall :=
  if csoPresent then [.readFileToBlob kind true]
  else [.readFileToBlob kind false, .compileFromFile kind]

/-- Trace model of `D3d11Renderer::load_hlsl`: obtain the vertex-shader
blob, create the vertex shader and the input layout from it, then obtain
the pixel-shader blob and create the pixel shader. -/
def load_hlsl (env : ShaderEnv) : List ApiCall :=
  create_shader_from_file_calls .vertex env.vsCsoPresent ++
    [.createVertexShader, .createInputLayout] ++
    create_shader_from_file_calls .pixel env.psCsoPresent ++
    [.createPixelShader]

/-- Trace model of `D3d11Renderer::render`: build the three-vertex array
and its immutable buffer description, create the vertex buffer with the
vertex data, load the shaders, then set up the input assembler and the
two shader stages.  `render` takes `&self` and does not touch the view
fields. -/
def render (env : ShaderEnv) : List ApiCall :=
  [.createBuffer vbd] ++ load_hlsl env ++
    [.iaSetVertexBuffers sizeOfVertexPosColor 0,
     .iaSetPrimitiveTopology D3D11_PRIMITIVE_TOPOLOGY_TRIANGLELIST,
     .iaSetInputLayout, .vsSetShader, .psSetShader]

/-- Model of `D3d11Renderer::draw_scene`: clear the render-target and
depth-stencil views (unwrapping both `Option` fields — `none` means the
unwrap panics), issue `Draw(3, 0)` and present.  The result is `none`
exactly when one of the unwraps panics. -/
def draw_scene (r : D3d11Renderer) : Option (List ApiCall) :=
  match r.render_target_view, r.depth_stencil_view with
  | some rtv, some dsv =>
      some [.clearRenderTargetView rtv.id, .clearDepthStencilView dsv.id,
            .draw 3 0, .present]
  | _, _ => none

/-- Renderer states reachable through the public renderer operations:
the state `D3d11Renderer::new` returns, and the state after any normal
return of `on_resize` from a reachable state. -/
inductive ReachableRenderer : D3d11Renderer → GpuState → Prop where
  | new : ∀ g pos size,
      ReachableRenderer (D3d11Renderer.new g pos size).1
        (D3d11Renderer.new g pos size).2.1
  | resize : ∀ r g pos size, ReachableRenderer r g →
      ReachableRenderer (D3d11Renderer.on_resize r g pos size).1
        (D3d11Renderer.on_resize r g pos size).2.1

/-! ## The program's main pipeline (main.rs) -/

/-- The initial GPU state, before any native object has been created. -/
def initialGpu : GpuState := ⟨0, 0, 0, 0, none, none⟩

/-- Trace model of `main` up to entering the message loop: register the
window class and create the window, construct the renderer
(device, swap chain, views, bind, viewport), show the window, then
`render()` and `draw_scene()` once. -/
def mainTrace (env : ShaderEnv) (pos : Position) (size : Size) : List ApiCall :=
  let nr := D3d11Renderer.new initialGpu pos size
  [.createWindow] ++ nr.2.2 ++ render env ++ (draw_scene nr.1).getD []

/-- First index of a call satisfying `p` in the trace `t`. -/
def firstIdx (p : ApiCall → Bool) (t : List ApiCall) : Option Nat :=
  t.findIdx? p

/-- Whether some call satisfying `p` occurs in `t` strictly before some
call satisfying `q` (both must occur). -/
def callBefore (p q : ApiCall → Bool) (t : List ApiCall) : Bool :=
  match firstIdx p t, firstIdx q t with
  | some i, some j => i < j
  | _, _ => false

def isCreateWindow : ApiCall → Bool
  | .createWindow => true
  | _ => false

def isCreateDevice : ApiCall → Bool
  | .createDevice => true
  | _ => false

def isCreateSwapChain : ApiCall → Bool
  | .createSwapChain _ _ => true
  | _ => false

def isCreateView : ApiCall → Bool
  | .createRenderTargetView _ => true
  | .createDepthStencilView _ => true
  | _ => false

def isCreateBuffer : ApiCall → Bool
  | .createBuffer _ => true
  | _ => false

def isShaderLoad : ApiCall → Bool
  | .readFileToBlob _ _ => true
  | .compileFromFile _ => true
  | _ => false

def isCompile : ApiCall → Bool
  | .compileFromFile _ => true
  | _ => false

def isVertexCompile : ApiCall → Bool
  | .compileFromFile .vertex => true
  | _ => false

def isPixelCompile : ApiCall → Bool
  | .compileFromFile .pixel => true
  | _ => false

def isClear : ApiCall → Bool
  | .clearRenderTargetView _ => true
  | .clearDepthStencilView _ => true
  | _ => false

def isDraw : ApiCall → Bool
  | .draw _ _ => true
  | _ => false

def isPresent : ApiCall → Bool
  | .present => true
  | _ => false

def isResizeBuffers : ApiCall → Bool
  | .resizeBuffers _ _ => true
  | _ => false

/-- The topology left set by a trace, if any (`IASetPrimitiveTopology`
is sticky context state; the last call wins). -/
def lastSetTopology (t : List ApiCall) : Option Nat :=
  t.foldl (fun acc e =>
    match e with
    | .iaSetPrimitiveTopology topo => some topo
    | _ => acc) none

/-! ## Window objects and the window registry (window.rs)

`WndClass` holds `window_instances: RwLock<HashMap<*const c_void,
Weak<Window>>>`.  Windows are identified by a `WindowId`; `Arc<Window>`
reference counting is modelled by an explicit strong count per window, so
that weak references are visibly non-owning: the registry stores bare
`WindowId`s and never contributes to a strong count. -/

abbrev WindowId := Nat

/-- Model of `window.rs` `struct EventHandler`: the message it is
registered for, plus an id standing for the boxed closure. -/
structure EventHandler where
  msg : Nat
  id : Nat
deriving DecidableEq, Repr

/-- Model of `window.rs` `struct Window`: the native handle value and the
registered event handlers, in registration order. -/
structure Window where
  hwnd : Nat
  callbacks : List EventHandler
deriving DecidableEq, Repr

/-- Association-list lookup, modelling `HashMap::get`. -/
def lookupA {α : Type} (l : List (Nat × α)) (k : Nat) : Option α :=
  (l.find? (fun p => p.1 == k)).map (fun p => p.2)

/-- Association-list removal, modelling `HashMap::remove`. -/
def removeA {α : Type} (l : List (Nat × α)) (k : Nat) : List (Nat × α) :=
  l.filter (fun p => p.1 != k)

/-- Association-list insert-or-replace, modelling `HashMap::insert`. -/
def insertA {α : Type} (l : List (Nat × α)) (k : Nat) (v : α) : List (Nat × α) :=
  (k, v) :: removeA l k

/-- The process state around `WndClass`: the registry (handle value to
weak window reference), the allocated `Window` objects, the strong count
of each window's `Arc`, and a fresh-id supply. -/
structure ProcState where
  /-- `WndClass.window_instances`: handle value to `Weak<Window>`. -/
  window_instances : List (Nat × WindowId)
  /-- The allocated `Window` objects. -/
  windows : List (WindowId × Window)
  /-- Strong count of each window's `Arc` (weak refs do not count). -/
  strong : List (WindowId × Nat)
  nextId : WindowId
deriving DecidableEq, Repr

/-- Strong count of a window (0 when never allocated). -/
def strongCount (s : ProcState) (wid : WindowId) : Nat :=
  (lookupA s.strong wid).getD 0

/-- Model of `Weak::upgrade`: yields the window only while its strong
count is positive; the registry entry alone never keeps it alive. -/
def upgrade (s : ProcState) (wid : WindowId) : Option Window :=
  if 0 < strongCount s wid then lookupA s.windows wid else none

namespace Window

/-- Model of `Window::new` after a successful `CreateWindowExW`: allocate
the `Window` behind a fresh `Arc` (strong count 1, held by the caller)
and insert a downgraded (weak) reference into
`WndClass.window_instances` under the handle value. -/
def new (s : ProcState) (hwnd : Nat) : WindowId × ProcState :=
  let wid := s.nextId
  (wid,
   { window_instances := insertA s.window_instances hwnd wid,
     windows := insertA s.windows wid ⟨hwnd, []⟩,
     strong := insertA s.strong wid 1,
     nextId := s.nextId + 1 })

/-- Model of `Window::add_handler`: push the handler onto the window's
callback vector (at the back, preserving registration order). -/
def add_handler (s : ProcState) (wid : WindowId) (h : EventHandler) : ProcState :=
  { s with windows :=
      match lookupA s.windows wid with
      | some w => insertA s.windows wid ⟨w.hwnd, w.callbacks ++ [h]⟩
      | none => s.windows }

/-- The caller drops one `Arc<Window>`: the strong count decreases; the
registry is untouched. -/
def dropArc (s : ProcState) (wid : WindowId) : ProcState :=
  { s with strong := insertA s.strong wid (strongCount s wid - 1) }

end Window

/-- The result of `Window::wnd_proc` after the handler loop. -/
inductive WndResult where
  /-- An explicit `LRESULT` value returned. -/
  | lresult (v : Int)
  /-- Fell through to `DefWindowProcW`. -/
  | defWindowProc
  /-- The `WM_DESTROY` arm: `PostQuitMessage(0)` then `panic!`. -/
  | panicked
deriving DecidableEq, Repr

/-- Model of `Window::wnd_proc`: run every registered handler whose
`msg` equals the incoming message, in registration order, then match on
the message: `WM_PAINT` returns 0, `WM_DESTROY` posts quit and panics,
anything else goes to `DefWindowProcW`.  The first component lists the
ids of the handlers invoked, in invocation order. -/
def Window.wnd_proc (w : Window) (msg : Nat) : List Nat × WndResult :=
  let invoked := (w.callbacks.filter (fun h => h.msg == msg)).map (fun h => h.id)
  let res : WndResult :=
    if msg == WM_PAINT then .lresult 0
    else if msg == WM_DESTROY then .panicked
    else .defWindowProc
  (invoked, res)

/-- What the global window procedure did with a message. -/
inductive DispatchOutcome where
  /-- Routed to the window object's `wnd_proc`; carries the handler ids
  invoked (in order) and the result. -/
  | routed (invoked : List Nat) (res : WndResult)
  /-- Went straight to `DefWindowProcW` without touching any `Window`. -/
  | defaultProc
  /-- The `WM_NCDESTROY` arm: registry entry erased, `LRESULT(0)`
  returned; `postedQuit` records whether the registry became empty and
  `PostQuitMessage` ran. -/
  | erased (postedQuit : Bool)
deriving DecidableEq, Repr

/-- Model of the global `WndClass::wnd_proc`: `WM_NCCREATE` goes to
`DefWindowProcW`; `WM_NCDESTROY` removes the registry entry for the
handle (posting quit when the registry empties); every other message is
looked up in the registry, the weak reference upgraded, and on success
routed to `Window::wnd_proc` (the source's separate `WM_DESTROY` arm
performs exactly this same lookup-upgrade-route sequence). -/
def WndClass.wnd_proc (s : ProcState) (hwnd : Nat) (msg : Nat) :
    ProcState × DispatchOutcome :=
  if msg == WM_NCCREATE then (s, .defaultProc)
  else if msg == WM_NCDESTROY then
    let reg := removeA s.window_instances hwnd
    ({ s with window_instances := reg }, .erased reg.isEmpty)
  else
    match lookupA s.window_instances hwnd with
    | some wid =>
      match upgrade s wid with
      | some w =>
        let pr := Window.wnd_proc w msg
        (s, .routed pr.1 pr.2)
      | none => (s, .defaultProc)
    | none => (s, .defaultProc)

/-! ## The WM_SIZE handler registered by main (main.rs) -/

/-- The size the `WM_SIZE` closure in `main` computes from the message:
`lparam.0 as u32` truncates the native `isize` to 32 bits, and then both
`width` and `height` are `LOWORD` of that truncation.  `lparam` is given
by its non-negative bit pattern. -/
def resizeCallbackSize (lparam : Nat) : Size :=
  ⟨Int.ofNat (LOWORD (lparam % 4294967296)),
   Int.ofNat (LOWORD (lparam % 4294967296))⟩

/-- Model of the `WM_SIZE` closure registered in `main`: compute the size
from `lparam`, call `on_resize` with the captured window position and
that size, then `render()` and `draw_scene()`.  The trace is `none` if
`draw_scene` panics on an unset view. -/
def wm_size_callback (env : ShaderEnv) (pos : Position) (r : D3d11Renderer)
    (g : GpuState) (lparam : Nat) :
    D3d11Renderer × GpuState × Option (List ApiCall) :=
  let sz := resizeCallbackSize lparam
  let rz := D3d11Renderer.on_resize r g pos sz
  let r1 := rz.1
  let g1 := rz.2.1
  (r1, g1, (draw_scene r1).map (fun t3 => rz.2.2 ++ render env ++ t3))

/-! ## Auxiliary predicates on traces -/

def isReleaseView : ApiCall → Bool
  | .releaseView _ => true
  | _ => false

def isOmSetRenderTargets : ApiCall → Bool
  | .omSetRenderTargets _ _ => true
  | _ => false

def isCreateVertexShaderCall : ApiCall → Bool
  | .createVertexShader => true
  | _ => false

def isCreatePixelShaderCall : ApiCall → Bool
  | .createPixelShader => true
  | _ => false

/-- An event by which the vertex-shader bytecode is obtained: a
successful `.cso` read or a source compile. -/
def isVertexBlobObtained : ApiCall → Bool
  | .readFileToBlob .vertex true => true
  | .compileFromFile .vertex => true
  | _ => false

/-- An event by which the pixel-shader bytecode is obtained. -/
def isPixelBlobObtained : ApiCall → Bool
  | .readFileToBlob .pixel true => true
  | .compileFromFile .pixel => true
  | _ => false

/-! ## Lemmas about the association-list registry operations -/

theorem lookupA_insertA_self {α : Type} (l : List (Nat × α)) (k : Nat) (v : α) :
    lookupA (insertA l k v) k = some v := by
  simp [lookupA, insertA, List.find?]

theorem lookupA_removeA_ne {α : Type} (l : List (Nat × α)) (k k' : Nat)
    (h : k' ≠ k) : lookupA (removeA l k) k' = lookupA l k' := by
  induction l with
  | nil => simp [lookupA, removeA]
  | cons hd tl ih =>
    by_cases hk : hd.1 = k
    · have h1 : (hd.1 != k) = false := by simp [hk]
      have h2 : (hd.1 == k') = false := by simp [hk, Ne.symm h]
      simp only [removeA, List.filter, h1, lookupA, List.find?, h2] at ih ⊢
      simpa using ih
    · have h1 : (hd.1 != k) = true := by simp [hk]
      by_cases hk' : hd.1 = k'
      · have h3 : (k' != k) = true := by simp [h]
        simp [removeA, List.filter, h1, lookupA, List.find?, hk', h3]
      · have h2 : (hd.1 == k') = false := by simp [hk']
        simp only [removeA, List.filter, h1, lookupA, List.find?, h2] at ih ⊢
        simpa using ih

theorem lookupA_insertA_ne {α : Type} (l : List (Nat × α)) (k k' : Nat) (v : α)
    (h : k' ≠ k) : lookupA (insertA l k v) k' = lookupA l k' := by
  have hbeq : (k == k') = false := by simp [Ne.symm h]
  have hr := lookupA_removeA_ne l k k' h
  simp only [insertA, lookupA, List.find?, hbeq] at hr ⊢
  exact hr

theorem lookupA_removeA_self {α : Type} (l : List (Nat × α)) (k : Nat) :
    lookupA (removeA l k) k = none := by
  induction l with
  | nil => simp [lookupA, removeA]
  | cons hd tl ih =>
    by_cases hk : hd.1 = k
    · have h1 : (hd.1 != k) = false := by simp [hk]
      simp only [removeA, List.filter, h1, lookupA] at ih ⊢
      exact ih
    · have h1 : (hd.1 != k) = true := by simp [hk]
      have h2 : (hd.1 == k) = false := by simp [hk]
      simp only [removeA, List.filter, h1, lookupA, List.find?, h2] at ih ⊢
      exact ih

/-! ## Claim C1 (error handling, corrected)

The claim says every native API call failure is an immediate abort with
no recovery, retry or degraded continuation.  That is refuted by the
code: `create_shader_from_file` recovers from a failed
`D3DReadFileToBlob` by falling back to compiling the HLSL source, and
`present` (like `draw_scene`) discards the result of `Present` and
continues. -/

/-- Claim C1, counterexample: the claim "every native API call failure
causes an immediate abort; no call site recovers or continues" is false.
The `D3DReadFileToBlob` site in `create_shader_from_file` has fallback
behaviour — on read failure with a succeeding compile the function
returns the compiled blob instead of aborting — and `present` continues
normally after a failed `Present`. -/
theorem C1_counterexample :
    (⟨"create_shader_from_file", "D3DReadFileToBlob",
      FailureBehavior.fallback⟩ : NativeCallSite) ∈ nativeCallSites ∧
    FailureBehavior.fallback ≠ FailureBehavior.abort ∧
    create_shader_from_file none (some 42) = some 42 ∧
    (⟨"D3d11Renderer::present", "Present",
      FailureBehavior.ignore⟩ : NativeCallSite) ∈ nativeCallSites ∧
    present_outcome true = ExecOutcome.continues := by
  refine ⟨by decide, by decide, rfl, by decide, rfl⟩

/-- Claim C1, amended: every fallible native API call site aborts on
failure, except that (a) the `.cso` cache read `D3DReadFileToBlob` falls
back to compiling the HLSL source (aborting only if that compile also
fails, per `create_shader_from_file`), (b) `CreateWindowExW` failure is
returned as an error value to the caller, and (c) the results of
`Present`, `ShowWindow`, `UpdateWindow`, `RegisterClassW`, `GetMessageW`,
`TranslateMessage` and `DispatchMessageW` are discarded or not checked
for failure, so execution continues after their failures. -/
theorem C1_failures_abort_with_exceptions (cs : NativeCallSite)
    (h : cs ∈ nativeCallSites) :
    cs.onFailure = .abort ∨
    (cs.api = "D3DReadFileToBlob" ∧ cs.onFailure = .fallback ∧
      create_shader_from_file none none = none) ∨
    (cs.api = "CreateWindowExW" ∧ cs.onFailure = .returnErr) ∨
    (cs.onFailure = .ignore ∧
      cs.api ∈ ["Present", "ShowWindow", "UpdateWindow", "RegisterClassW",
                "GetMessageW", "TranslateMessage", "DispatchMessageW"]) := by
  fin_cases h <;> simp [create_shader_from_file]

/-- Claim C1, witness: the amended theorem applied to the
`GetClientRect` call site, which aborts on failure. -/
theorem C1_witness :
    (⟨"Window::get_size", "GetClientRect",
      FailureBehavior.abort⟩ : NativeCallSite).onFailure = .abort ∨
    ((⟨"Window::get_size", "GetClientRect",
      FailureBehavior.abort⟩ : NativeCallSite).api = "D3DReadFileToBlob" ∧
      (⟨"Window::get_size", "GetClientRect",
        FailureBehavior.abort⟩ : NativeCallSite).onFailure = .fallback ∧
      create_shader_from_file none none = none) ∨
    ((⟨"Window::get_size", "GetClientRect",
      FailureBehavior.abort⟩ : NativeCallSite).api = "CreateWindowExW" ∧
      (⟨"Window::get_size", "GetClientRect",
        FailureBehavior.abort⟩ : NativeCallSite).onFailure = .returnErr) ∨
    ((⟨"Window::get_size", "GetClientRect",
      FailureBehavior.abort⟩ : NativeCallSite).onFailure = .ignore ∧
      (⟨"Window::get_size", "GetClientRect",
        FailureBehavior.abort⟩ : NativeCallSite).api ∈
        ["Present", "ShowWindow", "UpdateWindow", "RegisterClassW",
         "GetMessageW", "TranslateMessage", "DispatchMessageW"]) :=
  C1_failures_abort_with_exceptions
    ⟨"Window::get_size", "GetClientRect", FailureBehavior.abort⟩ (by decide)

/-! ## Claim C2 (resize lifecycle, confirmed) -/

/-- Claim C2: every normal return of `on_resize` first drops both views
held by the renderer (their handles are released before the surface is
resized), then recreates both from the resized swap-chain surface (the
new views carry the advanced surface generation, and the depth texture
is created at the new size), and rebinds them, so a subsequent draw uses
only the new views.  The hypotheses say the renderer holds views created
earlier (their ids predate the id supply), as in every reachable state. -/
theorem C2_on_resize_recreates_and_rebinds_views
    (r : D3d11Renderer) (g : GpuState) (pos : Position) (size : Size)
    (rtv₀ dsv₀ : ViewId)
    (h1 : r.render_target_view = some rtv₀)
    (h2 : r.depth_stencil_view = some dsv₀)
    (hb1 : rtv₀.id < g.nextViewId) (hb2 : dsv₀.id < g.nextViewId) :
    (D3d11Renderer.on_resize r g pos size).1.render_target_view =
      some ⟨g.nextViewId, g.surfaceGen + 1⟩ ∧
    (D3d11Renderer.on_resize r g pos size).1.depth_stencil_view =
      some ⟨g.nextViewId + 1, g.surfaceGen + 1⟩ ∧
    (D3d11Renderer.on_resize r g pos size).1.render_target_view ≠
      r.render_target_view ∧
    (D3d11Renderer.on_resize r g pos size).1.depth_stencil_view ≠
      r.depth_stencil_view ∧
    ((D3d11Renderer.on_resize r g pos size).2.2.take 2 =
      [ApiCall.releaseView rtv₀.id, ApiCall.releaseView dsv₀.id]) ∧
    callBefore isReleaseView isResizeBuffers
      (D3d11Renderer.on_resize r g pos size).2.2 = true ∧
    callBefore isResizeBuffers isCreateView
      (D3d11Renderer.on_resize r g pos size).2.2 = true ∧
    callBefore isCreateView isOmSetRenderTargets
      (D3d11Renderer.on_resize r g pos size).2.2 = true ∧
    ApiCall.resizeBuffers size.width size.height ∈
      (D3d11Renderer.on_resize r g pos size).2.2 ∧
    ApiCall.createTexture2D size.width size.height ∈
      (D3d11Renderer.on_resize r g pos size).2.2 ∧
    (D3d11Renderer.on_resize r g pos size).2.1.surfaceGen = g.surfaceGen + 1 ∧
    (D3d11Renderer.on_resize r g pos size).2.1.boundRTV = some g.nextViewId ∧
    (D3d11Renderer.on_resize r g pos size).2.1.boundDSV =
      some (g.nextViewId + 1) := by
  obtain ⟨f1, f2⟩ := r
  simp only at h1 h2
  subst h1 h2
  refine ⟨rfl, rfl, ?_, ?_, rfl, rfl, rfl, rfl, ?_, ?_, rfl, rfl, rfl⟩
  · intro hcontra
    simp only [D3d11Renderer.on_resize, D3d11Renderer.create_views,
      D3d11Renderer.bind_render_target, D3d11Renderer.set_viewport,
      Option.some.injEq] at hcontra
    have := congrArg ViewId.id hcontra
    simp only at this
    omega
  · intro hcontra
    simp only [D3d11Renderer.on_resize, D3d11Renderer.create_views,
      D3d11Renderer.bind_render_target, D3d11Renderer.set_viewport,
      Option.some.injEq] at hcontra
    have := congrArg ViewId.id hcontra
    simp only at this
    omega
  · simp [D3d11Renderer.on_resize, D3d11Renderer.create_views,
      D3d11Renderer.bind_render_target, D3d11Renderer.set_viewport]
  · simp [D3d11Renderer.on_resize, D3d11Renderer.create_views,
      D3d11Renderer.bind_render_target, D3d11Renderer.set_viewport]

/-- Claim C2, witness: the resize theorem applied to a renderer holding
views 0 and 1 over a GPU state whose id supply is at 2. -/
theorem C2_witness :
    (D3d11Renderer.on_resize ⟨some ⟨0, 0⟩, some ⟨1, 0⟩⟩
      ⟨0, 640, 480, 2, some 0, some 1⟩ ⟨0, 0⟩ ⟨800, 600⟩).1.render_target_view =
      some ⟨2, 1⟩ ∧
    (D3d11Renderer.on_resize ⟨some ⟨0, 0⟩, some ⟨1, 0⟩⟩
      ⟨0, 640, 480, 2, some 0, some 1⟩ ⟨0, 0⟩ ⟨800, 600⟩).2.1.boundRTV = some 2 :=
  ⟨(C2_on_resize_recreates_and_rebinds_views ⟨some ⟨0, 0⟩, some ⟨1, 0⟩⟩
      ⟨0, 640, 480, 2, some 0, some 1⟩ ⟨0, 0⟩ ⟨800, 600⟩ ⟨0, 0⟩ ⟨1, 0⟩
      rfl rfl (by decide) (by decide)).1,
   (C2_on_resize_recreates_and_rebinds_views ⟨some ⟨0, 0⟩, some ⟨1, 0⟩⟩
      ⟨0, 640, 480, 2, some 0, some 1⟩ ⟨0, 0⟩ ⟨800, 600⟩ ⟨0, 0⟩ ⟨1, 0⟩
      rfl rfl (by decide) (by decide)).2.2.2.2.2.2.2.2.2.2.2.1⟩

/-! ## Claim C10 (view invariant, confirmed) -/

/-- Claim C10: in every renderer state reachable through the public
operations — the state `D3d11Renderer::new` returns and the state after
each normal return of `on_resize` — both `render_target_view` and
`depth_stencil_view` are `Some`, so the unconditional unwraps of the two
fields in `draw_scene` cannot panic (`draw_scene` returns a trace rather
than `none`). -/
theorem C10_reachable_states_have_views (r : D3d11Renderer) (g : GpuState)
    (h : ReachableRenderer r g) :
    r.render_target_view.isSome = true ∧
    r.depth_stencil_view.isSome = true ∧
    (draw_scene r).isSome = true := by
  induction h with
  | new g pos size => exact ⟨rfl, rfl, rfl⟩
  | resize r g pos size hr ih => exact ⟨rfl, rfl, rfl⟩

/-- Claim C10, witness: the invariant applied to the state produced by
`D3d11Renderer::new` from the initial GPU state. -/
theorem C10_witness :
    (draw_scene (D3d11Renderer.new initialGpu ⟨0, 0⟩ ⟨640, 480⟩).1).isSome = true :=
  (C10_reachable_states_have_views
    (D3d11Renderer.new initialGpu ⟨0, 0⟩ ⟨640, 480⟩).1
    (D3d11Renderer.new initialGpu ⟨0, 0⟩ ⟨640, 480⟩).2.1
    (ReachableRenderer.new initialGpu ⟨0, 0⟩ ⟨640, 480⟩)).2.2

/-! ## Claim C3 (window registry, confirmed) -/

/-- Claim C3: the process-wide registry `WndClass.window_instances` is
keyed by the native handle value and stores only weak references.
`Window::new` inserts the entry for the new window under its handle
value, while the single strong reference is the `Arc` returned to the
caller (and no other window's strong count changes); handling
`WM_NCDESTROY` erases the entry for the handle and changes no strong
count; and a window whose strong count has reached zero can no longer be
upgraded from the registry, whatever the registry holds — the registry
never keeps a `Window` alive. -/
theorem C3_registry_weak_lifecycle (s : ProcState) (hwnd : Nat)
    (w w' : WindowId) (hw : w ≠ s.nextId) (hdead : strongCount s w' = 0) :
    lookupA (Window.new s hwnd).2.window_instances hwnd =
      some (Window.new s hwnd).1 ∧
    strongCount (Window.new s hwnd).2 (Window.new s hwnd).1 = 1 ∧
    strongCount (Window.new s hwnd).2 w = strongCount s w ∧
    lookupA (WndClass.wnd_proc s hwnd WM_NCDESTROY).1.window_instances hwnd =
      none ∧
    (WndClass.wnd_proc s hwnd WM_NCDESTROY).1.strong = s.strong ∧
    upgrade s w' = none := by
  refine ⟨?_, ?_, ?_, ?_, ?_, ?_⟩
  · exact lookupA_insertA_self _ _ _
  · simp [strongCount, Window.new, lookupA_insertA_self]
  · simp [strongCount, Window.new, lookupA_insertA_ne _ _ _ _ hw]
  · simp only [WndClass.wnd_proc]
    norm_num [WM_NCDESTROY, WM_NCCREATE]
    exact lookupA_removeA_self _ _
  · simp only [WndClass.wnd_proc]
    norm_num [WM_NCDESTROY, WM_NCCREATE]
  · simp [upgrade, hdead]

/-- Claim C3, witness: the registry lifecycle theorem applied to a state
holding one window (id 0, handle 7, strong count 1), a distinct window
id 5 and a dead window id 9. -/
theorem C3_witness :
    lookupA (Window.new ⟨[(7, 0)], [(0, ⟨7, []⟩)], [(0, 1)], 1⟩ 8).2.window_instances
      8 = some (Window.new ⟨[(7, 0)], [(0, ⟨7, []⟩)], [(0, 1)], 1⟩ 8).1 ∧
    strongCount (Window.new ⟨[(7, 0)], [(0, ⟨7, []⟩)], [(0, 1)], 1⟩ 8).2 0 =
      strongCount ⟨[(7, 0)], [(0, ⟨7, []⟩)], [(0, 1)], 1⟩ 0 ∧
    upgrade ⟨[(7, 0)], [(0, ⟨7, []⟩)], [(0, 1)], 1⟩ 9 = none := by
  have h := C3_registry_weak_lifecycle ⟨[(7, 0)], [(0, ⟨7, []⟩)], [(0, 1)], 1⟩ 8
    0 9 (by decide) (by decide)
  exact ⟨h.1, h.2.2.1, h.2.2.2.2.2⟩

/-! ## Claim C4 (message routing, corrected)

The claim says every OS message delivered to a registered, live window
is routed through the global window procedure to that window's
`wnd_proc`.  That is refuted by the code: the `WM_NCCREATE` arm of
`WndClass::wnd_proc` goes straight to `DefWindowProcW` without consulting
the registry (and `WM_NCDESTROY` only erases the registry entry), even
when the window is registered, alive, and has a handler for that very
message.  For every other message the routing and the handler ordering
are as claimed. -/

/-- A process state with one live registered window (id 0, handle 7)
carrying a handler registered for `WM_NCCREATE`. -/
def procStateNC : ProcState :=
  Window.add_handler (Window.new ⟨[], [], [], 0⟩ 7).2
    (Window.new ⟨[], [], [], 0⟩ 7).1 ⟨WM_NCCREATE, 10⟩

/-- Claim C4, counterexample: a `WM_NCCREATE` message delivered to
handle 7 — present in the registry, with its window alive and holding a
handler registered for `WM_NCCREATE` — is not routed to the window's
`wnd_proc`: the global procedure answers `DefWindowProcW` directly and
no handler runs. -/
theorem C4_counterexample :
    lookupA procStateNC.window_instances 7 = some 0 ∧
    (upgrade procStateNC 0).isSome = true ∧
    (⟨WM_NCCREATE, 10⟩ : EventHandler) ∈
      ((upgrade procStateNC 0).getD ⟨0, []⟩).callbacks ∧
    (WndClass.wnd_proc procStateNC 7 WM_NCCREATE).2 =
      DispatchOutcome.defaultProc ∧
    DispatchOutcome.defaultProc ≠
      DispatchOutcome.routed [10] WndResult.defWindowProc := by
  refine ⟨by decide, by decide, by decide, by decide, by decide⟩

/-- Claim C4, amended: for every OS message other than `WM_NCCREATE` and
`WM_NCDESTROY` delivered to a handle whose registry entry upgrades to a
live window, the global window procedure routes the message to that
window's `wnd_proc`, which invokes exactly the registered handlers whose
message id equals the incoming message, in registration order (the
invocation list is the filtered registration list, a sublist of it, and
contains every matching handler), before producing the fallback result
(`LRESULT(0)` for `WM_PAINT`, post-quit-and-panic for `WM_DESTROY`,
`DefWindowProcW` otherwise). -/
theorem C4_dispatch_routes_in_order (s : ProcState) (hwnd msg : Nat)
    (wid : WindowId) (w : Window)
    (hm1 : msg ≠ WM_NCCREATE) (hm2 : msg ≠ WM_NCDESTROY)
    (hl : lookupA s.window_instances hwnd = some wid)
    (hu : upgrade s wid = some w) :
    (WndClass.wnd_proc s hwnd msg).2 =
      DispatchOutcome.routed
        ((w.callbacks.filter (fun h => h.msg == msg)).map (fun h => h.id))
        (Window.wnd_proc w msg).2 ∧
    (WndClass.wnd_proc s hwnd msg).1 = s ∧
    List.Sublist (w.callbacks.filter (fun h => h.msg == msg)) w.callbacks ∧
    (∀ h ∈ w.callbacks, h.msg = msg → h.id ∈ (Window.wnd_proc w msg).1) := by
  refine ⟨?_, ?_, List.filter_sublist _, ?_⟩
  · simp [WndClass.wnd_proc, hm1, hm2, hl, hu, Window.wnd_proc]
  · simp [WndClass.wnd_proc, hm1, hm2, hl, hu]
  · intro h hmem hmsg
    simp only [Window.wnd_proc, List.mem_map]
    exact ⟨h, List.mem_filter.mpr ⟨hmem, by simp [hmsg]⟩, rfl⟩

/-- A process state with one live registered window (id 0, handle 7)
carrying a handler registered for `WM_SIZE` with closure id 11. -/
def procStateSize : ProcState :=
  Window.add_handler (Window.new ⟨[], [], [], 0⟩ 7).2
    (Window.new ⟨[], [], [], 0⟩ 7).1 ⟨WM_SIZE, 11⟩

/-- Claim C4, witness: dispatching `WM_SIZE` to the live registered
window of `procStateSize` routes to its `wnd_proc`, invoking exactly the
`WM_SIZE` handler (id 11) and then falling through to `DefWindowProcW`. -/
theorem C4_witness :
    (WndClass.wnd_proc procStateSize 7 WM_SIZE).2 =
      DispatchOutcome.routed [11] WndResult.defWindowProc := by
  have h := C4_dispatch_routes_in_order procStateSize 7 WM_SIZE 0
    ⟨7, [⟨WM_SIZE, 11⟩]⟩ (by decide) (by decide) (by decide) (by decide)
  exact h.1.trans (by decide)

/-! ## Claim C5 (vertex buffer and draw, confirmed) -/

/-- Claim C5: the vertex buffer uploaded by `render` holds exactly the
three position-plus-color records, its description asks for immutable
usage with no CPU access (`ByteWidth` covering exactly the three
records), and whenever `draw_scene` runs on views it can unwrap it
issues exactly one `Draw` call — `Draw(3, 0)` — with the triangle-list
topology left set by `render`. -/
theorem C5_three_vertex_triangle (env : ShaderEnv) (r : D3d11Renderer)
    (t : List ApiCall) (h : draw_scene r = some t) :
    vertices.length = 3 ∧
    vbd.Usage = D3D11_USAGE_IMMUTABLE ∧
    vbd.CPUAccessFlags = 0 ∧
    vbd.ByteWidth = sizeOfVertexPosColor * 3 ∧
    ApiCall.createBuffer vbd ∈ render env ∧
    ApiCall.draw 3 0 ∈ t ∧
    (render env ++ t).countP isDraw = 1 ∧
    lastSetTopology (render env ++ t) =
      some D3D11_PRIMITIVE_TOPOLOGY_TRIANGLELIST := by
  obtain ⟨f1, f2⟩ := r
  cases f1 with
  | none => simp [draw_scene] at h
  | some rtv =>
    cases f2 with
    | none => simp [draw_scene] at h
    | some dsv =>
      simp only [draw_scene, Option.some_inj] at h
      obtain ⟨vs, ps⟩ := env
      subst h
      cases vs <;> cases ps <;>
        exact ⟨rfl, rfl, rfl, rfl, by simp [render], by simp, rfl, rfl⟩

/-- Claim C5, witness: the theorem applied to the renderer produced by
`D3d11Renderer::new`, whose `draw_scene` trace exists. -/
theorem C5_witness :
    ApiCall.draw 3 0 ∈
      [ApiCall.clearRenderTargetView 0, ApiCall.clearDepthStencilView 1,
       ApiCall.draw 3 0, ApiCall.present] :=
  (C5_three_vertex_triangle ⟨false, false⟩
    (D3d11Renderer.new initialGpu ⟨0, 0⟩ ⟨640, 480⟩).1
    [ApiCall.clearRenderTargetView 0, ApiCall.clearDepthStencilView 1,
     ApiCall.draw 3 0, ApiCall.present] rfl).2.2.2.2.2.1

/-! ## Claim C6 (pipeline order, corrected)

The claim gives the pipeline order "... compile the shaders, then upload
the geometry ...".  The code runs these two steps the other way round:
`render` creates and fills the vertex buffer first and only then calls
`load_hlsl`. -/

/-- Claim C6, counterexample: in the program trace (with both shader
caches missing, so that compiles happen at all), the vertex-buffer
upload (`CreateBuffer`, index 9) precedes the first shader compile
(index 11), contradicting the claimed order "compile the shaders, then
upload the geometry". -/
theorem C6_counterexample :
    firstIdx isCreateBuffer (mainTrace ⟨false, false⟩ ⟨0, 0⟩ ⟨640, 480⟩) =
      some 9 ∧
    firstIdx isCompile (mainTrace ⟨false, false⟩ ⟨0, 0⟩ ⟨640, 480⟩) =
      some 11 ∧
    callBefore isCompile isCreateBuffer
      (mainTrace ⟨false, false⟩ ⟨0, 0⟩ ⟨640, 480⟩) = false ∧
    callBefore isCreateBuffer isCompile
      (mainTrace ⟨false, false⟩ ⟨0, 0⟩ ⟨640, 480⟩) = true := by
  refine ⟨by decide, by decide, by decide, by decide⟩

/-- Claim C6, amended: the program executes the linear pipeline
create window → create device → create swap chain → create views →
upload geometry → load (read or compile) shaders → clear → draw →
present, in this order for every shader-cache environment and window
geometry — with geometry upload before shader loading, not after — and
on each resize the swap-chain resize precedes the view rebuild, which
precedes the rebind. -/
theorem C6_pipeline_order (env : ShaderEnv) (pos : Position) (size : Size) :
    callBefore isCreateWindow isCreateDevice (mainTrace env pos size) = true ∧
    callBefore isCreateDevice isCreateSwapChain (mainTrace env pos size) = true ∧
    callBefore isCreateSwapChain isCreateView (mainTrace env pos size) = true ∧
    callBefore isCreateView isCreateBuffer (mainTrace env pos size) = true ∧
    callBefore isCreateBuffer isShaderLoad (mainTrace env pos size) = true ∧
    callBefore isShaderLoad isClear (mainTrace env pos size) = true ∧
    callBefore isClear isDraw (mainTrace env pos size) = true ∧
    callBefore isDraw isPresent (mainTrace env pos size) = true ∧
    (∀ (r : D3d11Renderer) (g : GpuState) (p2 : Position) (s2 : Size),
      callBefore isResizeBuffers isCreateView
        (D3d11Renderer.on_resize r g p2 s2).2.2 = true ∧
      callBefore isCreateView isOmSetRenderTargets
        (D3d11Renderer.on_resize r g p2 s2).2.2 = true) := by
  obtain ⟨vs, ps⟩ := env
  cases vs <;> cases ps <;>
    exact ⟨rfl, rfl, rfl, rfl, rfl, rfl, rfl, rfl, by
      intro r g p2 s2
      obtain ⟨f1, f2⟩ := r
      cases f1 <;> cases f2 <;> exact ⟨rfl, rfl⟩⟩

/-! ## Claim C8 (shader compilation, corrected)

The claim says the program compiles exactly two HLSL shaders when it
loads its shader pipeline.  But `create_shader_from_file` compiles only
when the precompiled `.cso` read fails: when both `.cso` files are
readable, the pipeline load performs no compilation at all. -/

/-- Claim C8, counterexample: with both `.cso` caches present, loading
the shader pipeline performs zero `D3DCompileFromFile` calls — not two —
both in `load_hlsl` and in the whole program trace. -/
theorem C8_counterexample :
    (load_hlsl ⟨true, true⟩).countP isCompile = 0 ∧
    (mainTrace ⟨true, true⟩ ⟨0, 0⟩ ⟨640, 480⟩).countP isCompile = 0 ∧
    (0 : Nat) ≠ 2 := by
  refine ⟨by decide, by decide, by decide⟩

/-- Claim C8, amended: loading the shader pipeline obtains exactly two
shader bytecodes — one vertex, one pixel — each either read from its
`.cso` cache or compiled from HLSL source; a shader is compiled exactly
when its cache read fails, so at most two compiles happen, and exactly
two (one vertex, one pixel) exactly when both cache reads fail.  Exactly
one vertex shader and one pixel shader object are then created. -/
theorem C8_two_shaders_compiled_on_cache_miss (env : ShaderEnv) :
    (load_hlsl env).countP isVertexBlobObtained = 1 ∧
    (load_hlsl env).countP isPixelBlobObtained = 1 ∧
    (load_hlsl env).countP isVertexCompile =
      (if env.vsCsoPresent then 0 else 1) ∧
    (load_hlsl env).countP isPixelCompile =
      (if env.psCsoPresent then 0 else 1) ∧
    (load_hlsl env).countP isCompile =
      (if env.vsCsoPresent then 0 else 1) +
        (if env.psCsoPresent then 0 else 1) ∧
    (load_hlsl env).countP isCompile ≤ 2 ∧
    (load_hlsl env).countP isCreateVertexShaderCall = 1 ∧
    (load_hlsl env).countP isCreatePixelShaderCall = 1 := by
  obtain ⟨vs, ps⟩ := env
  cases vs <;> cases ps <;> exact ⟨rfl, rfl, rfl, rfl, rfl, by decide, rfl, rfl⟩

/-! ## Claim C7 (resize callback, confirmed) -/

/-- Claim C7: a handler registered for `WM_SIZE` is invoked whenever a
`WM_SIZE` message is dispatched to its live window, and the closure
registered by `main` then resizes the renderer with the size it computes
from the message's `lparam` and redraws the triangle — `on_resize`, then
the `render` call sequence, then the `draw_scene` call sequence (ending
in `Draw(3, 0)` and `Present`) — before returning.  The hypotheses say
the window has the handler registered and the renderer holds views, as
in every reachable state. -/
theorem C7_wm_size_handler_resizes_then_redraws
    (env : ShaderEnv) (pos : Position) (r : D3d11Renderer) (g : GpuState)
    (lparam : Nat) (hid : Nat) (w : Window) (rtv₀ dsv₀ : ViewId)
    (hreg : (⟨WM_SIZE, hid⟩ : EventHandler) ∈ w.callbacks)
    (h1 : r.render_target_view = some rtv₀)
    (h2 : r.depth_stencil_view = some dsv₀) :
    hid ∈ (Window.wnd_proc w WM_SIZE).1 ∧
    (wm_size_callback env pos r g lparam).1 =
      (D3d11Renderer.on_resize r g pos (resizeCallbackSize lparam)).1 ∧
    (wm_size_callback env pos r g lparam).2.2 =
      some ((D3d11Renderer.on_resize r g pos (resizeCallbackSize lparam)).2.2 ++
        render env ++
        [ApiCall.clearRenderTargetView g.nextViewId,
         ApiCall.clearDepthStencilView (g.nextViewId + 1),
         ApiCall.draw 3 0, ApiCall.present]) ∧
    ApiCall.resizeBuffers (resizeCallbackSize lparam).width
        (resizeCallbackSize lparam).height ∈
      ((wm_size_callback env pos r g lparam).2.2).getD [] ∧
    callBefore isResizeBuffers isCreateBuffer
      (((wm_size_callback env pos r g lparam).2.2).getD []) = true ∧
    callBefore isCreateBuffer isDraw
      (((wm_size_callback env pos r g lparam).2.2).getD []) = true ∧
    callBefore isDraw isPresent
      (((wm_size_callback env pos r g lparam).2.2).getD []) = true := by
  obtain ⟨f1, f2⟩ := r
  simp only at h1 h2
  subst h1 h2
  obtain ⟨vs, ps⟩ := env
  refine ⟨?_, rfl, rfl, ?_, ?_, ?_, ?_⟩
  · simp only [Window.wnd_proc, List.mem_map]
    exact ⟨⟨WM_SIZE, hid⟩, List.mem_filter.mpr ⟨hreg, by simp⟩, rfl⟩
  · cases vs <;> cases ps <;>
      simp [wm_size_callback, D3d11Renderer.on_resize,
        D3d11Renderer.create_views, D3d11Renderer.bind_render_target,
        D3d11Renderer.set_viewport, draw_scene, render, load_hlsl,
        create_shader_from_file_calls]
  · cases vs <;> cases ps <;> rfl
  · cases vs <;> cases ps <;> rfl
  · cases vs <;> cases ps <;> rfl

/-- Claim C7, witness: the callback theorem applied to the window of
`procStateSize` (handler id 11 for `WM_SIZE`) and a renderer holding
views 0 and 1. -/
theorem C7_witness :
    (11 : Nat) ∈ (Window.wnd_proc ⟨7, [⟨WM_SIZE, 11⟩]⟩ WM_SIZE).1 ∧
    (wm_size_callback ⟨false, false⟩ ⟨0, 0⟩ ⟨some ⟨0, 0⟩, some ⟨1, 0⟩⟩
      ⟨0, 640, 480, 2, some 0, some 1⟩ 65576).1 =
      (D3d11Renderer.on_resize ⟨some ⟨0, 0⟩, some ⟨1, 0⟩⟩
        ⟨0, 640, 480, 2, some 0, some 1⟩ ⟨0, 0⟩
        (resizeCallbackSize 65576)).1 := by
  have h := C7_wm_size_handler_resizes_then_redraws ⟨false, false⟩ ⟨0, 0⟩
    ⟨some ⟨0, 0⟩, some ⟨1, 0⟩⟩ ⟨0, 640, 480, 2, some 0, some 1⟩ 65576 11
    ⟨7, [⟨WM_SIZE, 11⟩]⟩ ⟨0, 0⟩ ⟨1, 0⟩ (by decide) rfl rfl
  exact ⟨h.1, h.2.1⟩

/-! ## Claim C9 (LOWORD for both dimensions, confirmed) -/

/-- Claim C9: the `WM_SIZE` closure in `main` computes both the width
and the height it passes to `on_resize` as `LOWORD` of (the 32-bit
truncation of) `lparam`: the height always equals the width, the width
is the low 16 bits of `lparam`, and the computed size depends only on
those low 16 bits — the high word is never used. -/
theorem C9_wm_size_low_word_both (lparam l' : Nat)
    (h : l' % 65536 = lparam % 65536) :
    (resizeCallbackSize lparam).height = (resizeCallbackSize lparam).width ∧
    (resizeCallbackSize lparam).width = Int.ofNat (lparam % 65536) ∧
    resizeCallbackSize l' = resizeCallbackSize lparam := by
  have key : ∀ n : Nat, LOWORD (n % 4294967296) = n % 65536 := by
    intro n
    rw [LOWORD_eq_mod]
    exact Nat.mod_mod_of_dvd n (by norm_num)
  refine ⟨rfl, ?_, ?_⟩
  · simp [resizeCallbackSize, key]
  · simp [resizeCallbackSize, key, h]

/-- Claim C9, witness: `lparam = 0x10028` (width word 40, height word 1)
yields the same size as `lparam = 40`, with both dimensions 40. -/
theorem C9_witness :
    (resizeCallbackSize 65576).height = (resizeCallbackSize 65576).width ∧
    (resizeCallbackSize 65576).width = Int.ofNat 40 ∧
    resizeCallbackSize 40 = resizeCallbackSize 65576 :=
  C9_wm_size_low_word_both 65576 40 (by decide)

end FWC
